import Mathlib

/-!
Verification development for the TfL MCP server (`src/tfl/server.py`).

The source is a small Python module: an upstream HTTP client
(`make_tfl_request`), five pure record formatters, and a tool dispatcher
(`handle_call_tool`) exposing five named operations.  We give a shallow
embedding: JSON values are an inductive type, Python's dynamic failures
(AttributeError, TypeError, KeyError, ...) are an explicit error type, and
every fallible operation returns `Except PyErr`.  The network is an explicit
oracle argument, and each tool handler returns the list of upstream requests
it issued together with its result, so that claims about "which calls were
made" are statable.

Modelling conventions, stated once:
* JSON numbers are modelled as `Int` (the claims under verification only
  involve integral values; float formatting is out of scope).
* `str.strip()` is modelled by `pyStrip` (drop whitespace at both ends).
* `list.sort(key=...)` is modelled by a stable insertion sort; sort keys are
  modelled for string and integer keys, other key types (which CPython would
  sometimes order) are mapped to a TypeError.
* `datetime.fromisoformat` and `datetime.now()` are standard-library calls,
  not repository code; they are abstracted as an explicit parse function
  `String → Option Int` (epoch seconds) and an explicit `now : Int` argument.
-/

/-- A JSON value, as returned by the TfL API and manipulated by the server. -/
inductive Json where
  | null
  | bool (b : Bool)
  | int (n : Int)
  | str (s : String)
  | arr (elems : List Json)
  | obj (fields : List (String × Json))

/-- The field list of a Python dict holding JSON values. -/
abbrev Dict := List (String × Json)

/-- The Python exceptions our model distinguishes. -/
inductive PyErr where
  | valueError (msg : String)
  | attributeError (msg : String)
  | typeError (msg : String)
  | keyError (k : String)
  | indexError
  | httpStatusError (status : Nat)
  | transportError
  | jsonDecodeError
deriving DecidableEq

/-- Python truthiness (`bool(x)`) of a JSON value. -/
def Json.truthy : Json → Bool
  | .null => false
  | .bool b => b
  | .int n => n != 0
  | .str s => s != ""
  | .arr xs => !xs.isEmpty
  | .obj fs => !fs.isEmpty

/-- First binding of key `k` in a dict (Python dicts have unique keys). -/
def dictLookup (fs : Dict) (k : String) : Option Json :=
  match fs with
  | [] => none
  | kv :: tl => if kv.1 == k then some kv.2 else dictLookup tl k

/-- Lookup with a default value, like Python `dict.get(k, d)` on a dict. -/
def dictLookupD (fs : Dict) (k : String) (d : Json) : Json :=
  (dictLookup fs k).getD d

/-- Python `x.get(k, d)`: succeeds on dicts, raises AttributeError otherwise. -/
def dictGet (j : Json) (k : String) (d : Json) : Except PyErr Json :=
  match j with
  | .obj fs => .ok (dictLookupD fs k d)
  | _ => .error (.attributeError "get")

/-- Python `x == s` against a string literal: only equal strings compare
equal; values of any other type compare unequal (no exception). -/
def eqStr (j : Json) (s : String) : Bool :=
  match j with
  | .str t => t == s
  | _ => false

/-- Python subscription `c[k]`: dict lookup by string key (KeyError when
missing), list/str indexing with negative-index wraparound (IndexError when
out of range), TypeError otherwise. -/
def getItem (c : Json) (k : Json) : Except PyErr Json :=
  match c, k with
  | .obj fs, .str s =>
      match dictLookup fs s with
      | some v => .ok v
      | none => .error (.keyError s)
  | .obj _, _ => .error (.keyError "non-string key")
  | .arr xs, .int i =>
      let idx : Int := if i < 0 then i + xs.length else i
      if idx < 0 then .error .indexError
      else
        match xs[idx.toNat]? with
        | some v => .ok v
        | none => .error .indexError
  | .str s, .int i =>
      let idx : Int := if i < 0 then i + s.length else i
      if idx < 0 then .error .indexError
      else
        match s.data[idx.toNat]? with
        | some c => .ok (.str (String.mk [c]))
        | none => .error .indexError
  | _, _ => .error (.typeError "not subscriptable")

/-- Python iteration `for x in c`: lists yield elements, strings yield
one-character strings, dicts yield their keys; other values raise. -/
def pyIter (c : Json) : Except PyErr (List Json) :=
  match c with
  | .arr xs => .ok xs
  | .str s => .ok (s.data.map fun ch => .str (String.mk [ch]))
  | .obj fs => .ok (fs.map fun kv => .str kv.1)
  | _ => .error (.typeError "not iterable")

/-- Python slicing `c[:n]` for nonnegative `n`: lists and strings only. -/
def pySlice (c : Json) (n : Nat) : Except PyErr Json :=
  match c with
  | .arr xs => .ok (.arr (xs.take n))
  | .str s => .ok (.str (String.mk (s.data.take n)))
  | _ => .error (.typeError "unsliceable")

/-- Python `k in c` for a string `k`: key test on dicts, membership on
lists, substring test on strings, TypeError otherwise. -/
def pyContains (c : Json) (k : String) : Except PyErr Bool :=
  match c with
  | .obj fs => .ok (fs.any fun kv => kv.1 == k)
  | .arr xs => .ok (xs.any fun x => eqStr x k)
  | .str s => .ok (decide (k.data <:+: s.data))
  | _ => .error (.typeError "argument not iterable")

mutual

/-- Python `repr` of a JSON value (container cases; used by `pyStr`). -/
def pyRepr : Json → String
  | .null => "None"
  | .bool true => "True"
  | .bool false => "False"
  | .int n => toString n
  | .str s => "\x27" ++ s ++ "\x27"
  | .arr xs => "[" ++ pyReprElems xs ++ "]"
  | .obj fs => "\x7b" ++ pyReprFields fs ++ "\x7d"

def pyReprElems : List Json → String
  | [] => ""
  | [x] => pyRepr x
  | x :: y :: xs => pyRepr x ++ ", " ++ pyReprElems (y :: xs)

def pyReprFields : List (String × Json) → String
  | [] => ""
  | [(k, v)] => "\x27" ++ k ++ "\x27: " ++ pyRepr v
  | (k, v) :: kv :: fs => "\x27" ++ k ++ "\x27: " ++ pyRepr v ++ ", " ++ pyReprFields (kv :: fs)

end

/-- Python `str(x)`, as used by f-string interpolation. -/
def pyStr : Json → String
  | .str s => s
  | j => pyRepr j

/-- Python format spec `f"{x:.0f}"` on our integral number model: works on
numbers and bools, raises on everything else. -/
def formatFixed0 (j : Json) : Except PyErr String :=
  match j with
  | .int n => .ok (toString n)
  | .bool b => .ok (if b then "1" else "0")
  | _ => .error (.typeError "unsupported format spec")

/-- `str.join` accepts only string sequence items, raising TypeError on
anything else. -/
def asStr : Json → Except PyErr String
  | .str s => .ok s
  | _ => .error (.typeError "sequence item: expected str")

/-- Python `sep.join(xs)` on an already-materialised list of values: every
element must be a string, otherwise TypeError. -/
def joinValueList (sep : String) (xs : List Json) : Except PyErr String := do
  let strs ← xs.mapM asStr
  pure (String.intercalate sep strs)

/-- Python `sep.join(c)` on an arbitrary iterable. -/
def pyJoinStrs (sep : String) (c : Json) : Except PyErr String := do
  joinValueList sep (← pyIter c)

/-- Python `sep.join(str(x) for x in c)`: `str` never fails, so only the
iteration itself can raise. -/
def pyJoinMapStr (sep : String) (c : Json) : Except PyErr String := do
  pure (String.intercalate sep ((← pyIter c).map pyStr))

/-- Python `str.strip()` with no argument: remove leading and trailing
whitespace. -/
def pyStrip (s : String) : String :=
  String.mk (((s.data.dropWhile Char.isWhitespace).reverse.dropWhile
    Char.isWhitespace).reverse)

/-- Helper for `pySplitComma`: `acc` is the current chunk, reversed. -/
def splitCommaAux : List Char → List Char → List String
  | [], acc => [String.mk acc.reverse]
  | c :: cs, acc =>
      if c = ',' then String.mk acc.reverse :: splitCommaAux cs []
      else splitCommaAux cs (c :: acc)

/-- Python `s.split(",")`: splits at every comma, keeping empty chunks. -/
def pySplitComma (s : String) : List String :=
  splitCommaAux s.data []

/-- `replaceZ` models the source's `s.replace("Z", "+00:00")`: every
occurrence of the single character `Z` is replaced. -/
def replaceZChars : List Char → List Char
  | [] => []
  | c :: cs => if c = 'Z' then "+00:00".data ++ replaceZChars cs else c :: replaceZChars cs

def replaceZ (s : String) : String :=
  String.mk (replaceZChars s.data)

/-! ### Formatters (`format_*` functions of `server.py`) -/

/-- `format_line_status`: name, first status entry's severity description,
optional reason, trailing separator. -/
def format_line_status (line_data : Json) : Except PyErr String := do
  let name ← dictGet line_data "name" (.str "Unknown Line")
  let statuses ← dictGet line_data "lineStatuses" (.arr [])
  let (status, reason) ←
    if statuses.truthy then do
      let s0 ← getItem statuses (.int 0)
      let status ← dictGet s0 "statusSeverityDescription" (.str "Unknown")
      let reason ← dictGet s0 "reason" (.str "")
      pure (status, reason)
    else
      pure ((.str "Unknown" : Json), (.str "" : Json))
  let formatted := "Line: " ++ pyStr name ++ "\nStatus: " ++ pyStr status
  let formatted := if reason.truthy then formatted ++ "\nReason: " ++ pyStr reason else formatted
  pure (formatted ++ "\n---")

/-- `format_arrival`: the `datetime.fromisoformat` call is abstracted as
`parse` (returning epoch seconds) and `datetime.now()` as `now`; the bare
`except:` in the source catches every failure of the timestamp computation,
which is why that part never raises. -/
def format_arrival (parse : String → Option Int) (now : Int) (arrival : Json) :
    Except PyErr String := do
  let line ← dictGet arrival "lineName" (.str "Unknown Line")
  let destination ← dictGet arrival "destinationName" (.str "Unknown Destination")
  let platform ← dictGet arrival "platformName" (.str "Unknown Platform")
  let time_desc :=
    match dictGet arrival "expectedArrival" (.str "") with
    | .ok (.str s) =>
        match parse (replaceZ s) with
        | some t =>
            let minutes : Int := (t - now).tdiv 60
            if minutes > 0 then toString minutes ++ " minutes" else "Due"
        | none => "Time unknown"
    | _ => "Time unknown"
  pure ("Line: " ++ pyStr line ++ "\nPlatform: " ++ pyStr platform ++
        "\nDestination: " ++ pyStr destination ++ "\nArrival: " ++ time_desc ++ "\n---")

/-- One iteration of `format_bike_point`'s property loop: update the
`(bikes_available, docks_available)` pair from one property record. -/
def bikeStep (bd : Json × Json) (prop : Json) : Except PyErr (Json × Json) := do
  let k ← dictGet prop "key" .null
  if eqStr k "NbBikes" then
    pure ((← dictGet prop "value" (.str "Unknown")), bd.2)
  else if eqStr k "NbEmptyDocks" then
    pure (bd.1, (← dictGet prop "value" (.str "Unknown")))
  else
    pure bd

/-- `format_bike_point`: scans the `additionalProperties` list for the
`NbBikes` and `NbEmptyDocks` keys, keeping the last value found for each. -/
def format_bike_point (point : Json) : Except PyErr String := do
  let name ← dictGet point "commonName" (.str "Unknown Location")
  let bikes ← dictGet point "additionalProperties" (.arr [])
  let items ← pyIter bikes
  let avail ← items.foldlM bikeStep ((.str "Unknown" : Json), (.str "Unknown" : Json))
  pure ("Location: " ++ pyStr name ++ "\nBikes Available: " ++ pyStr avail.1 ++
        "\nEmpty Docks: " ++ pyStr avail.2 ++ "\n---")

/-- `line.get("name", "")`, the element access of the serving-lines list
comprehensions in `format_station_info` and `format_nearby_stop`. -/
def lineName (l : Json) : Except PyErr Json :=
  dictGet l "name" (.str "")

/-- One iteration of `format_station_info`'s `additionalProperties` loops:
append the property's `key` when its `category` equals `cat`. -/
def categoryStep (cat : String) (acc : List Json) (prop : Json) :
    Except PyErr (List Json) := do
  let c ← dictGet prop "category" .null
  if eqStr c cat then
    pure (acc ++ [← dictGet prop "key" (.str "")])
  else
    pure acc

/-- One pass of `format_station_info`'s `additionalProperties` loops:
collect `key` of every property whose `category` equals `cat`. -/
def collectByCategory (items : List Json) (cat : String) : Except PyErr (List Json) :=
  items.foldlM (categoryStep cat) []

/-- `format_station_info`: name, modes, zones, serving lines, and the
optional facilities/accessibility sections. -/
def format_station_info (station_data : Json) : Except PyErr String := do
  let name ← dictGet station_data "commonName" (.str "Unknown Station")
  let modes ← pyJoinStrs ", " (← dictGet station_data "modes" (.arr []))
  let zones ← pyJoinMapStr ", " (← dictGet station_data "zones" (.arr []))
  let props ← pyIter (← dictGet station_data "additionalProperties" (.arr []))
  let facilities ← collectByCategory props "Facility"
  let lineNames ← (← pyIter (← dictGet station_data "lines" (.arr []))).mapM lineName
  let accessibility ← collectByCategory props "Accessibility"
  let linesStr ← joinValueList ", " lineNames
  let formatted := "Station: " ++ pyStr name ++ "\nTransport Modes: " ++ modes ++
    "\nZones: " ++ zones ++ "\nLines: " ++ linesStr ++ "\n"
  let formatted ←
    if facilities.isEmpty then pure formatted
    else do pure (formatted ++ "Facilities: " ++ (← joinValueList ", " facilities) ++ "\n")
  let formatted ←
    if accessibility.isEmpty then pure formatted
    else do pure (formatted ++ "Accessibility: " ++ (← joinValueList ", " accessibility) ++ "\n")
  pure (formatted ++ "---")

/-- `format_nearby_stop`: name, distance rendered with `:.0f`, modes and
serving lines. -/
def format_nearby_stop (stop : Json) : Except PyErr String := do
  let name ← dictGet stop "commonName" (.str "Unknown Location")
  let distance ← dictGet stop "distance" (.int 0)
  let modes ← pyJoinStrs ", " (← dictGet stop "modes" (.arr []))
  let lineNames ← (← pyIter (← dictGet stop "lines" (.arr []))).mapM lineName
  let linesStr ← joinValueList ", " lineNames
  let dist ← formatFixed0 distance
  pure ("Stop: " ++ pyStr name ++ "\nDistance: " ++ dist ++ "m\nModes: " ++ modes ++
        "\nLines: " ++ linesStr ++ "\n---")

/-! ### Tool dispatch (`handle_call_tool`)

Each handler returns the ordered list of upstream requests it issued
together with its result: `.ok text` models returning a single
`TextContent` whose text is `text`, and `.error e` models a Python
exception propagating to the host.  The network is the oracle
`World : Request → Option Json`, standing for `make_tfl_request`'s
result (`None` on any upstream failure). -/

/-- One call to `make_tfl_request`: the endpoint path and the explicit
`params` argument (`none` when the handler passes no params). -/
structure Request where
  endpoint : String
  params : Option Dict

/-- The upstream oracle: what `make_tfl_request` returns for each request. -/
abbrev World := Request → Option Json

/-- `arguments.get(k, "").strip()`: AttributeError when the value present
under `k` is not a string. -/
def getStrippedArg (args : Dict) (k : String) : Except PyErr String :=
  match (dictLookup args k).getD (.str "") with
  | .str s => .ok (pyStrip s)
  | _ => .error (.attributeError "strip")

/-- Python truthiness of `make_tfl_request`'s result (`not statuses_data`
is true both for `None` and for falsy JSON such as `[]`). -/
def optTruthy : Option Json → Bool
  | none => false
  | some j => j.truthy

/-- The sort key of one arrival record:
`lambda x: x.get("expectedArrival", "")`. -/
def arrivalKeyed (x : Json) : Except PyErr (Json × Json) := do
  pure ((← dictGet x "expectedArrival" (.str "")), x)

/-- View a keyed element as a string-keyed pair, when its key is a string. -/
def strKey? (p : Json × Json) : Option (String × Json) :=
  match p.1 with
  | .str s => some (s, p.2)
  | _ => none

/-- View a keyed element as an integer-keyed pair, when its key is a number. -/
def intKey? (p : Json × Json) : Option (Int × Json) :=
  match p.1 with
  | .int i => some (i, p.2)
  | _ => none

instance : DecidableRel (fun a b : String × Json => a.1 ≤ b.1) :=
  fun a b => inferInstanceAs (Decidable (a.1 ≤ b.1))

instance : DecidableRel (fun a b : Int × Json => a.1 ≤ b.1) :=
  fun a b => inferInstanceAs (Decidable (a.1 ≤ b.1))

/-- `arrivals_data.sort(key=lambda x: x.get("expectedArrival", ""))`.
The key function is applied to every element first (so a non-dict element
raises AttributeError); the sort itself is stable and compares keys, which
we model for all-string and all-integer key lists, raising TypeError on
heterogeneous keys the way CPython's comparisons do.  Lists of length at
most one are never compared. -/
def sortArrivals (xs : List Json) : Except PyErr (List Json) := do
  let keyed ← xs.mapM arrivalKeyed
  match keyed with
  | [] => pure []
  | [p] => pure [p.2]
  | _ =>
    match keyed.mapM strKey? with
    | some spairs =>
        pure ((List.insertionSort (fun a b => a.1 ≤ b.1) spairs).map Prod.snd)
    | none =>
      match keyed.mapM intKey? with
      | some ipairs =>
          pure ((List.insertionSort (fun a b => a.1 ≤ b.1) ipairs).map Prod.snd)
      | none => throw (.typeError "unorderable key types")

/-- The search request of the resolve-by-search step shared by
`get-arrivals` and `get-station-info`. -/
def searchReq (station : String) : Request :=
  ⟨"StopPoint/Search/" ++ station, some [("modes", .str "tube,overground,dlr")]⟩

/-- The resolve-by-search step: `.ok none` is the "could not find station"
outcome (absent result, falsy result, or falsy `matches`), `.ok (some id)`
is the first match's identifier, `.error` a propagating exception. -/
def resolveStation (sr : Option Json) : Except PyErr (Option Json) :=
  if !optTruthy sr then .ok none
  else
    match sr with
    | none => .ok none
    | some j => do
      let m ← dictGet j "matches" .null
      if !m.truthy then pure none
      else do
        let ms ← getItem j (.str "matches")
        let m0 ← getItem ms (.int 0)
        pure (some (← getItem m0 (.str "id")))

/-- `get-line-status` after a successful argument check: the part of the
handler from the upstream call onwards. -/
def lineStatusReply (sd : Option Json) : Except PyErr String :=
  if !optTruthy sd then .ok "Failed to retrieve line statuses"
  else
    match sd with
    | none => .ok "Failed to retrieve line statuses"
    | some j => do
      let blocks ← (← pyIter j).mapM format_line_status
      pure ("Current Line Statuses:\n\n" ++ String.intercalate "\n" blocks)

/-- The `get-line-status` branch of `handle_call_tool`. -/
def getLineStatusTool (world : World) (args : Dict) : List Request × Except PyErr String :=
  match getStrippedArg args "lines" with
  | .error e => ([], .error e)
  | .ok lines =>
    if lines = "" then ([], .error (.valueError "Lines parameter must not be empty"))
    else
      let lines_list := (pySplitComma lines).map pyStrip
      let req : Request := ⟨"Line/" ++ String.intercalate "," lines_list ++ "/Status", none⟩
      ([req], lineStatusReply (world req))

/-- `get-arrivals` from the arrivals fetch onwards. -/
def arrivalsReply (parse : String → Option Int) (now : Int) (station : String)
    (ad : Option Json) : Except PyErr String :=
  if !optTruthy ad then .ok ("Failed to retrieve arrivals for " ++ station)
  else
    match ad with
    | none => .ok ("Failed to retrieve arrivals for " ++ station)
    | some (.arr records) => do
      let sorted ← sortArrivals records
      let blocks ← (sorted.take 10).mapM (format_arrival parse now)
      pure ("Next arrivals at " ++ station ++ ":\n\n" ++ String.intercalate "\n" blocks)
    | some _ => .error (.attributeError "sort")

/-- The `get-arrivals` branch of `handle_call_tool`. -/
def getArrivalsTool (parse : String → Option Int) (now : Int) (world : World)
    (args : Dict) : List Request × Except PyErr String :=
  match getStrippedArg args "station" with
  | .error e => ([], .error e)
  | .ok station =>
    if station = "" then ([], .error (.valueError "Station parameter must not be empty"))
    else
      let req1 := searchReq station
      match resolveStation (world req1) with
      | .error e => ([req1], .error e)
      | .ok none => ([req1], .ok ("Could not find station: " ++ station))
      | .ok (some stationId) =>
        let req2 : Request := ⟨"StopPoint/" ++ pyStr stationId ++ "/Arrivals", none⟩
        ([req1, req2], arrivalsReply parse now station (world req2))

/-- `search-bike-points` from the upstream call onwards.  The source checks
`if not search_result:` twice in a row; the second (dead) check is kept. -/
def bikePointsReply (location : String) (sr : Option Json) : Except PyErr String :=
  if !optTruthy sr then .ok ("Failed to search for bike points near " ++ location)
  else if !optTruthy sr then .ok ("No bike points found near " ++ location)
  else
    match sr with
    | none => .ok ("Failed to search for bike points near " ++ location)
    | some j => do
      let blocks ← (← pyIter (← pySlice j 5)).mapM format_bike_point
      pure ("Bike points near " ++ location ++ ":\n\n" ++ String.intercalate "\n" blocks)

/-- The `search-bike-points` branch of `handle_call_tool`. -/
def searchBikePointsTool (world : World) (args : Dict) : List Request × Except PyErr String :=
  match getStrippedArg args "location" with
  | .error e => ([], .error e)
  | .ok location =>
    if location = "" then ([], .error (.valueError "Location parameter must not be empty"))
    else
      let req : Request := ⟨"BikePoint/Search", some [("query", .str location)]⟩
      ([req], bikePointsReply location (world req))

/-- `get-station-info` from the detail fetch onwards. -/
def stationInfoReply (station : String) (sd : Option Json) : Except PyErr String :=
  if !optTruthy sd then .ok ("Failed to retrieve information for " ++ station)
  else
    match sd with
    | none => .ok ("Failed to retrieve information for " ++ station)
    | some j => format_station_info j

/-- The `get-station-info` branch of `handle_call_tool`. -/
def getStationInfoTool (world : World) (args : Dict) : List Request × Except PyErr String :=
  match getStrippedArg args "station" with
  | .error e => ([], .error e)
  | .ok station =>
    if station = "" then ([], .error (.valueError "Station parameter must not be empty"))
    else
      let req1 := searchReq station
      match resolveStation (world req1) with
      | .error e => ([req1], .error e)
      | .ok none => ([req1], .ok ("Could not find station: " ++ station))
      | .ok (some stationId) =>
        let req2 : Request := ⟨"StopPoint/" ++ pyStr stationId, none⟩
        ([req1, req2], stationInfoReply station (world req2))

/-- Python `min(x, 1000)` on our integral number model. -/
def pyMin1000 (j : Json) : Except PyErr Json :=
  match j with
  | .int n => .ok (.int (min n 1000))
  | _ => .error (.typeError "unorderable types in min")

/-- `find-stops-by-radius` from the upstream call onwards. -/
def stopsReply (failText noneText okHeader : String) (sd : Option Json) :
    Except PyErr String :=
  match sd with
  | none => .ok failText
  | some j =>
    if !j.truthy then .ok failText
    else
      match pyContains j "stopPoints" with
      | .error e => .error e
      | .ok false => .ok failText
      | .ok true => do
        let stops ← getItem j (.str "stopPoints")
        if !stops.truthy then pure noneText
        else do
          let blocks ← (← pyIter (← pySlice stops 10)).mapM format_nearby_stop
          pure (okHeader ++ String.intercalate "\n" blocks)

/-- `arguments.get(k)` with no default: Python returns `None` both when
the key is absent and when it is present holding JSON null, and the
`x is not None` check cannot tell the two apart. -/
def getArgOpt (args : Dict) (k : String) : Option Json :=
  match dictLookup args k with
  | some .null => none
  | v => v

/-- The `find-stops-by-radius` branch of `handle_call_tool`.  Note the
source computes `radius = min(arguments.get("radius", 1000), 1000)` before
checking `lat`/`lon` for `None`, and a missing `radius` therefore defaults
to `1000` instead of failing the `None` check. -/
def findStopsByRadiusTool (world : World) (args : Dict) :
    List Request × Except PyErr String :=
  let latO := getArgOpt args "lat"
  let lonO := getArgOpt args "lon"
  match pyMin1000 (dictLookupD args "radius" (.int 1000)) with
  | .error e => ([], .error e)
  | .ok radius =>
    if latO.isNone || lonO.isNone then
      ([], .error (.valueError "Missing required parameters"))
    else
      match latO, lonO with
      | some lat, some lon =>
        let req : Request := ⟨"StopPoint",
          some [("lat", lat), ("lon", lon), ("radius", radius),
                ("modes", .str "tube,overground,dlr")]⟩
        let place := pyStr radius ++ "m of " ++ pyStr lat ++ ", " ++ pyStr lon
        ([req], stopsReply ("Failed to find stops within " ++ place)
          ("No stops found within " ++ place)
          ("Stops within " ++ place ++ ":\n\n") (world req))
      | _, _ => ([], .error (.valueError "Missing required parameters"))

/-- `handle_call_tool`: the `if not arguments` guard followed by dispatch
on the tool name; an unknown name is a hard `ValueError`. -/
def handle_call_tool (parse : String → Option Int) (now : Int) (world : World)
    (name : String) (arguments : Option Dict) : List Request × Except PyErr String :=
  match arguments with
  | none => ([], .error (.valueError "Missing arguments"))
  | some args =>
    if args.isEmpty then ([], .error (.valueError "Missing arguments"))
    else if name = "get-line-status" then getLineStatusTool world args
    else if name = "get-arrivals" then getArrivalsTool parse now world args
    else if name = "search-bike-points" then searchBikePointsTool world args
    else if name = "get-station-info" then getStationInfoTool world args
    else if name = "find-stops-by-radius" then findStopsByRadiusTool world args
    else ([], .error (.valueError ("Unknown tool: " ++ name)))

/-! ### The upstream client (`make_tfl_request`) -/

/-- What the network can do for one GET: fail in transport (connection
error, timeout), or deliver a response with a status code and a body that
either parses as JSON (`some j`) or does not (`none`). -/
inductive HttpOutcome where
  | transportError
  | response (status : Nat) (body : Option Json)

/-- Python `d[k] = v` on a dict: overwrite the binding for `k` in place, or
append a new one (Python dicts keep insertion order). -/
def dictSet (d : Dict) (k : String) (v : Json) : Dict :=
  match d with
  | [] => [(k, v)]
  | kv :: tl => if kv.1 == k then (k, v) :: tl else kv :: dictSet tl k v

/-- Python `d.update(p)`: set every binding of `p` in `d`, in order. -/
def dictUpdate (d : Dict) (p : Dict) : Dict :=
  p.foldl (fun acc kv => dictSet acc kv.1 kv.2) d

/-- The parameter map `make_tfl_request` sends: the two credential
parameters, updated with the caller's params when they are truthy
(`if params: default_params.update(params)`). -/
def mergedParams (appKey appId : Json) (params : Option Dict) : Dict :=
  let dflt : Dict := [("app_key", appKey), ("app_id", appId)]
  match params with
  | none => dflt
  | some p => if p.isEmpty then dflt else dictUpdate dflt p

/-- The body of `make_tfl_request`'s `try:` block: `raise_for_status()`
raises on any non-2xx status, then `response.json()` raises when the body
is not JSON. -/
def tflTryBlock (o : HttpOutcome) : Except PyErr Json :=
  match o with
  | .transportError => .error .transportError
  | .response status body =>
      if 200 ≤ status ∧ status < 300 then
        match body with
        | some j => .ok j
        | none => .error .jsonDecodeError
      else .error (.httpStatusError status)

/-- The `except Exception` wrapper: every failure of the try block becomes
`None`. -/
def tflResult (o : HttpOutcome) : Option Json :=
  match tflTryBlock o with
  | .ok j => some j
  | .error _ => none

/-- `make_tfl_request`: merge credentials into the params, issue the GET
(`net` is the network oracle), convert any failure to `None`. -/
def make_tfl_request (net : String → Dict → HttpOutcome) (appKey appId : Json)
    (endpoint : String) (params : Option Dict) : Option Json :=
  tflResult (net endpoint (mergedParams appKey appId params))

/-! ### Dictionary lemmas -/

theorem dictUpdate_cons (d : Dict) (kv : String × Json) (tl : Dict) :
    dictUpdate d (kv :: tl) = dictUpdate (dictSet d kv.1 kv.2) tl := rfl

theorem lookup_dictSet_self (d : Dict) (k : String) (v : Json) :
    dictLookup (dictSet d k v) k = some v := by
  induction d with
  | nil => simp [dictSet, dictLookup]
  | cons kv tl ih =>
      by_cases h : kv.1 == k
      · simp [dictSet, dictLookup, h]
      · simp [dictSet, dictLookup, h, ih]

theorem lookup_dictSet_ne (d : Dict) (k k' : String) (v : Json) (h : k' ≠ k) :
    dictLookup (dictSet d k v) k' = dictLookup d k' := by
  have hkk : (k == k') = false := beq_eq_false_iff_ne.mpr (Ne.symm h)
  induction d with
  | nil => simp [dictSet, dictLookup, hkk]
  | cons kv tl ih =>
      by_cases hh : kv.1 == k
      · have hkey : kv.1 = k := eq_of_beq hh
        simp [dictSet, dictLookup, hh, hkk, hkey]
      · simp only [dictSet, hh, if_false, Bool.false_eq_true]
        simp only [dictLookup]
        split
        · rfl
        · exact ih

theorem keys_ne_of_lookup_none (p : Dict) (k : String) (h : dictLookup p k = none) :
    ∀ kv ∈ p, kv.1 ≠ k := by
  induction p with
  | nil => simp
  | cons kv tl ih =>
      intro x hx
      by_cases hh : kv.1 == k
      · simp [dictLookup, hh] at h
      · rcases List.mem_cons.mp hx with rfl | hx'
        · exact fun he => by simp [he] at hh
        · exact ih (by simpa [dictLookup, hh] using h) x hx'

theorem lookup_dictUpdate_nomem (p : Dict) (k : String) (h : ∀ kv ∈ p, kv.1 ≠ k) :
    ∀ d : Dict, dictLookup (dictUpdate d p) k = dictLookup d k := by
  induction p with
  | nil => intro d; rfl
  | cons kv tl ih =>
      intro d
      rw [dictUpdate_cons]
      rw [ih (fun x hx => h x (List.mem_cons_of_mem _ hx))]
      exact lookup_dictSet_ne d kv.1 k kv.2 (Ne.symm (h kv (List.mem_cons_self _ _)))

theorem lookup_dictUpdate_mem (p : Dict) (k : String) (v : Json)
    (hnd : (p.map Prod.fst).Nodup) (h : dictLookup p k = some v) :
    ∀ d : Dict, dictLookup (dictUpdate d p) k = some v := by
  induction p with
  | nil => simp [dictLookup] at h
  | cons kv tl ih =>
      intro d
      rw [dictUpdate_cons]
      rw [List.map_cons] at hnd
      have hnd' := List.nodup_cons.mp hnd
      by_cases hh : kv.1 == k
      · have hkey : kv.1 = k := eq_of_beq hh
        have hv : kv.2 = v := by
          simpa [dictLookup, hh] using h
        have hno : ∀ x ∈ tl, x.1 ≠ k := by
          intro x hx hxk
          exact hnd'.1 (by rw [hkey, ← hxk]; exact List.mem_map_of_mem _ hx)
        rw [lookup_dictUpdate_nomem tl k hno, hkey, hv]
        exact lookup_dictSet_self d k v
      · have h' : dictLookup tl k = some v := by simpa [dictLookup, hh] using h
        exact ih hnd'.2 h' _

/-! ### Claims about the upstream client -/

/-- C7: the upstream client never raises: on a transport error, a non-2xx
status, or a malformed response body it returns `none`; on a 2xx response
with a JSON body it returns the parsed body. -/
theorem c7_failure_isolation :
    (∀ (net : String → Dict → HttpOutcome) (a i : Json) (e : String) (p : Option Dict),
        make_tfl_request net a i e p = tflResult (net e (mergedParams a i p))) ∧
    tflResult .transportError = none ∧
    (∀ s : Nat, tflResult (.response s none) = none) ∧
    (∀ (s : Nat) (j : Json), 200 ≤ s → s < 300 →
        tflResult (.response s (some j)) = some j) ∧
    (∀ (s : Nat) (j : Json), s < 200 ∨ 300 ≤ s →
        tflResult (.response s (some j)) = none) := by
  refine ⟨fun _ _ _ _ _ => rfl, rfl, fun s => ?_, fun s j h1 h2 => ?_, fun s j h => ?_⟩
  · simp only [tflResult, tflTryBlock]
    split_ifs <;> rfl
  · simp only [tflResult, tflTryBlock]
    rw [if_pos ⟨h1, h2⟩]
  · simp only [tflResult, tflTryBlock]
    rw [if_neg (fun hc => by omega)]

/-- Witness for C7 at concrete outcomes: a 200 response with body is
returned parsed, a 500 response is absorbed into `none`. -/
theorem c7_failure_isolation_witness :
    tflResult (.response 200 (some (.int 7))) = some (.int 7) ∧
    tflResult (.response 500 (some (.int 7))) = none :=
  ⟨c7_failure_isolation.2.2.2.1 200 (.int 7) (by decide) (by decide),
   c7_failure_isolation.2.2.2.2 500 (.int 7) (Or.inr (by decide))⟩

/-- C8: the two credential parameters are merged into every outgoing
parameter map, and a caller-supplied parameter of the same name wins. -/
theorem c8_credential_merge :
    (∀ a i : Json, dictLookup (mergedParams a i none) "app_key" = some a ∧
        dictLookup (mergedParams a i none) "app_id" = some i) ∧
    (∀ (a i : Json) (p : Dict) (v : Json), (p.map Prod.fst).Nodup →
        dictLookup p "app_key" = some v →
        dictLookup (mergedParams a i (some p)) "app_key" = some v) ∧
    (∀ (a i : Json) (p : Dict) (v : Json), (p.map Prod.fst).Nodup →
        dictLookup p "app_id" = some v →
        dictLookup (mergedParams a i (some p)) "app_id" = some v) ∧
    (∀ (a i : Json) (p : Dict), dictLookup p "app_key" = none →
        dictLookup (mergedParams a i (some p)) "app_key" = some a) ∧
    (∀ (a i : Json) (p : Dict), dictLookup p "app_id" = none →
        dictLookup (mergedParams a i (some p)) "app_id" = some i) ∧
    (∀ (net : String → Dict → HttpOutcome) (a i : Json) (e : String) (p : Option Dict),
        make_tfl_request net a i e p = tflResult (net e (mergedParams a i p))) := by
  refine ⟨fun a i => ⟨rfl, rfl⟩, ?_, ?_, ?_, ?_, fun _ _ _ _ _ => rfl⟩
  · intro a i p v hnd h
    match p with
    | [] => simp [dictLookup] at h
    | q :: tl => exact lookup_dictUpdate_mem _ _ _ hnd h _
  · intro a i p v hnd h
    match p with
    | [] => simp [dictLookup] at h
    | q :: tl => exact lookup_dictUpdate_mem _ _ _ hnd h _
  · intro a i p h
    match p with
    | [] => rfl
    | q :: tl =>
        show dictLookup (dictUpdate _ _) _ = _
        rw [lookup_dictUpdate_nomem _ _ (keys_ne_of_lookup_none _ _ h)]
        rfl
  · intro a i p h
    match p with
    | [] => rfl
    | q :: tl =>
        show dictLookup (dictUpdate _ _) _ = _
        rw [lookup_dictUpdate_nomem _ _ (keys_ne_of_lookup_none _ _ h)]
        rfl

/-- Witness for C8: a caller-supplied `app_key` overrides the credential,
while `app_id` falls through to the credential value. -/
theorem c8_credential_merge_witness :
    dictLookup (mergedParams (.str "K") (.str "I")
        (some [("app_key", .str "caller"), ("q", .str "x")])) "app_key" =
      some (.str "caller") ∧
    dictLookup (mergedParams (.str "K") (.str "I")
        (some [("q", .str "x")])) "app_id" = some (.str "I") :=
  ⟨c8_credential_merge.2.1 (.str "K") (.str "I") [("app_key", .str "caller"), ("q", .str "x")]
      (.str "caller") (by decide) rfl,
   c8_credential_merge.2.2.2.2.1 (.str "K") (.str "I") [("q", .str "x")] rfl⟩

/-! ### End-to-end example worlds -/

/-- A network on which every upstream call fails. -/
def emptyWorld : World := fun _ => none

/-- A timestamp parse function that recognises nothing (sufficient for
handlers that never reach the arrival formatter). -/
def noParse : String → Option Int := fun _ => none

/-- The upstream world of the spec's `get-line-status` end-to-end example. -/
def lineStatusWorld : World := fun r =>
  if r.endpoint = "Line/victoria/Status" then
    some (.arr [.obj [("name", .str "Victoria"),
      ("lineStatuses", .arr [.obj [("statusSeverityDescription", .str "Good Service")]])]])
  else none

/-- C9: `get-line-status` with `lines="victoria"` and the single
Good-Service record upstream yields exactly the expected text. -/
theorem c9_line_status_end_to_end :
    handle_call_tool noParse 0 lineStatusWorld "get-line-status"
        (some [("lines", .str "victoria")]) =
      ([⟨"Line/victoria/Status", none⟩],
       .ok "Current Line Statuses:\n\nLine: Victoria\nStatus: Good Service\n---") := rfl

/-! ### C1: required-argument validation -/

/-- C1 counterexample: invoking `find-stops-by-radius` with the required
`radius` argument missing does not raise — the handler defaults the radius
to 1000 and issues the upstream call anyway. -/
theorem c1_required_args_counterexample :
    handle_call_tool noParse 0 emptyWorld "find-stops-by-radius"
        (some [("lat", .int 51), ("lon", .int 0)]) =
      ([⟨"StopPoint", some [("lat", .int 51), ("lon", .int 0), ("radius", .int 1000),
          ("modes", .str "tube,overground,dlr")]⟩],
       .ok "Failed to find stops within 1000m of 51, 0") := rfl

/-- The input-error precondition for a string-typed required argument: the
key is absent, or its value is a string that is empty after stripping. -/
def blankArg (args : Dict) (k : String) : Prop :=
  dictLookup args k = none ∨ ∃ s, dictLookup args k = some (.str s) ∧ pyStrip s = ""

theorem getStrippedArg_blank (args : Dict) (k : String) (h : blankArg args k) :
    getStrippedArg args k = .ok "" := by
  unfold getStrippedArg
  rcases h with h | ⟨s, h, hs⟩
  · rw [h]; rfl
  · rw [h]; simp [Option.getD, hs]

theorem getLineStatusTool_blank (world : World) (args : Dict) (h : blankArg args "lines") :
    getLineStatusTool world args =
      ([], .error (.valueError "Lines parameter must not be empty")) := by
  unfold getLineStatusTool
  rw [getStrippedArg_blank args "lines" h]
  rfl

theorem getArrivalsTool_blank (parse : String → Option Int) (now : Int) (world : World)
    (args : Dict) (h : blankArg args "station") :
    getArrivalsTool parse now world args =
      ([], .error (.valueError "Station parameter must not be empty")) := by
  unfold getArrivalsTool
  rw [getStrippedArg_blank args "station" h]
  rfl

theorem searchBikePointsTool_blank (world : World) (args : Dict) (h : blankArg args "location") :
    searchBikePointsTool world args =
      ([], .error (.valueError "Location parameter must not be empty")) := by
  unfold searchBikePointsTool
  rw [getStrippedArg_blank args "location" h]
  rfl

theorem getStationInfoTool_blank (world : World) (args : Dict) (h : blankArg args "station") :
    getStationInfoTool world args =
      ([], .error (.valueError "Station parameter must not be empty")) := by
  unfold getStationInfoTool
  rw [getStrippedArg_blank args "station" h]
  rfl

theorem findStops_missing_latlon (world : World) (args : Dict)
    (h : dictLookup args "lat" = none ∨ dictLookup args "lon" = none) :
    ∃ e, findStopsByRadiusTool world args = ([], Except.error e) := by
  simp only [findStopsByRadiusTool]
  cases hm : pyMin1000 (dictLookupD args "radius" (.int 1000)) with
  | error e => exact ⟨e, by simp⟩
  | ok radius =>
      refine ⟨.valueError "Missing required parameters", ?_⟩
      rcases h with h | h <;> simp [getArgOpt, h]

/-- C1 amended: a missing or blank-after-strip required string argument of
the four string-argument tools raises a `ValueError` with no upstream call,
the `not arguments` guard raises for absent or empty argument dicts, and
for `find-stops-by-radius` a missing `lat` or `lon` raises with no upstream
call.  (The original claim also demanded this for a missing `radius`; the
counterexample shows `radius` instead defaults to 1000.) -/
theorem c1_required_args_amended :
    (∀ (parse : String → Option Int) (now : Int) (world : World) (name : String),
        handle_call_tool parse now world name none =
          ([], .error (.valueError "Missing arguments"))) ∧
    (∀ (parse : String → Option Int) (now : Int) (world : World) (name : String),
        handle_call_tool parse now world name (some []) =
          ([], .error (.valueError "Missing arguments"))) ∧
    (∀ (parse : String → Option Int) (now : Int) (world : World) (args : Dict),
        args ≠ [] → blankArg args "lines" →
        handle_call_tool parse now world "get-line-status" (some args) =
          ([], .error (.valueError "Lines parameter must not be empty"))) ∧
    (∀ (parse : String → Option Int) (now : Int) (world : World) (args : Dict),
        args ≠ [] → blankArg args "station" →
        handle_call_tool parse now world "get-arrivals" (some args) =
          ([], .error (.valueError "Station parameter must not be empty"))) ∧
    (∀ (parse : String → Option Int) (now : Int) (world : World) (args : Dict),
        args ≠ [] → blankArg args "location" →
        handle_call_tool parse now world "search-bike-points" (some args) =
          ([], .error (.valueError "Location parameter must not be empty"))) ∧
    (∀ (parse : String → Option Int) (now : Int) (world : World) (args : Dict),
        args ≠ [] → blankArg args "station" →
        handle_call_tool parse now world "get-station-info" (some args) =
          ([], .error (.valueError "Station parameter must not be empty"))) ∧
    (∀ (parse : String → Option Int) (now : Int) (world : World) (args : Dict),
        args ≠ [] → (dictLookup args "lat" = none ∨ dictLookup args "lon" = none) →
        ∃ e, handle_call_tool parse now world "find-stops-by-radius" (some args) =
          ([], Except.error e)) := by
  refine ⟨fun _ _ _ _ => rfl, fun _ _ _ _ => rfl, ?_, ?_, ?_, ?_, ?_⟩
  · intro parse now world args hne h
    match args with
    | [] => exact absurd rfl hne
    | q :: tl => exact getLineStatusTool_blank world (q :: tl) h
  · intro parse now world args hne h
    match args with
    | [] => exact absurd rfl hne
    | q :: tl => exact getArrivalsTool_blank parse now world (q :: tl) h
  · intro parse now world args hne h
    match args with
    | [] => exact absurd rfl hne
    | q :: tl => exact searchBikePointsTool_blank world (q :: tl) h
  · intro parse now world args hne h
    match args with
    | [] => exact absurd rfl hne
    | q :: tl => exact getStationInfoTool_blank world (q :: tl) h
  · intro parse now world args hne h
    match args with
    | [] => exact absurd rfl hne
    | q :: tl => exact findStops_missing_latlon world (q :: tl) h

/-- Witness for C1 (amended): a blank `lines` argument and a missing `lat`
argument both produce the input error with no upstream request. -/
theorem c1_required_args_witness :
    handle_call_tool noParse 0 emptyWorld "get-line-status" (some [("lines", .str " ")]) =
      ([], .error (.valueError "Lines parameter must not be empty")) ∧
    (∃ e, handle_call_tool noParse 0 emptyWorld "find-stops-by-radius"
        (some [("lon", .int 0), ("radius", .int 500)]) = ([], Except.error e)) :=
  ⟨c1_required_args_amended.2.2.1 noParse 0 emptyWorld [("lines", .str " ")]
      (by simp) (Or.inr ⟨" ", rfl, rfl⟩),
   c1_required_args_amended.2.2.2.2.2.2 noParse 0 emptyWorld [("lon", .int 0), ("radius", .int 500)]
      (by simp) (Or.inl rfl)⟩

/-! ### C2: the radius sent upstream -/

/-- C2 counterexample: a requested radius of zero is sent upstream as 0,
not defaulted to 1000 as the claim states. -/
theorem c2_radius_clamp_counterexample :
    (handle_call_tool noParse 0 emptyWorld "find-stops-by-radius"
        (some [("lat", .int 51), ("lon", .int 0), ("radius", .int 0)])).1 =
      [⟨"StopPoint", some [("lat", .int 51), ("lon", .int 0), ("radius", .int 0),
          ("modes", .str "tube,overground,dlr")]⟩] ∧
    Json.int 0 ≠ Json.int 1000 :=
  ⟨rfl, fun h => by injection h with h2; exact absurd h2 (by decide)⟩

theorem getArgOpt_some (args : Dict) (k : String) (v : Json)
    (h : dictLookup args k = some v) (hv : v ≠ .null) :
    getArgOpt args k = some v := by
  unfold getArgOpt
  rw [h]
  match v, hv with
  | .bool b, _ => rfl
  | .int n, _ => rfl
  | .str s, _ => rfl
  | .arr xs, _ => rfl
  | .obj fs, _ => rfl
  | .null, hv => exact absurd rfl hv

/-- C2 amended: with `lat` and `lon` present and non-null (so that the
source's `x is not None` check passes), a present integral radius `r` is
sent upstream as `min r 1000` (so 2000 is sent as 1000, but 0 is sent as
0), and an absent radius is sent as 1000. -/
theorem c2_radius_clamp_amended :
    (∀ (world : World) (args : Dict) (lat lon : Json) (r : Int),
        dictLookup args "lat" = some lat → lat ≠ .null →
        dictLookup args "lon" = some lon → lon ≠ .null →
        dictLookup args "radius" = some (.int r) →
        (findStopsByRadiusTool world args).1 =
          [⟨"StopPoint", some [("lat", lat), ("lon", lon), ("radius", .int (min r 1000)),
              ("modes", .str "tube,overground,dlr")]⟩]) ∧
    (∀ (world : World) (args : Dict) (lat lon : Json),
        dictLookup args "lat" = some lat → lat ≠ .null →
        dictLookup args "lon" = some lon → lon ≠ .null →
        dictLookup args "radius" = none →
        (findStopsByRadiusTool world args).1 =
          [⟨"StopPoint", some [("lat", lat), ("lon", lon), ("radius", .int 1000),
              ("modes", .str "tube,overground,dlr")]⟩]) := by
  constructor
  · intro world args lat lon r hlat hlatn hlon hlonn hr
    have hga := getArgOpt_some args "lat" lat hlat hlatn
    have hgo := getArgOpt_some args "lon" lon hlon hlonn
    simp [findStopsByRadiusTool, dictLookupD, hga, hgo, hr, pyMin1000]
  · intro world args lat lon hlat hlatn hlon hlonn hr
    have hga := getArgOpt_some args "lat" lat hlat hlatn
    have hgo := getArgOpt_some args "lon" lon hlon hlonn
    simp [findStopsByRadiusTool, dictLookupD, hga, hgo, hr, pyMin1000]

/-- Witness for C2 (amended): the spec's own example — a requested radius
of 2000 is sent upstream as 1000. -/
theorem c2_radius_clamp_witness :
    (findStopsByRadiusTool emptyWorld
        [("lat", .int 51), ("lon", .int 0), ("radius", .int 2000)]).1 =
      [⟨"StopPoint", some [("lat", .int 51), ("lon", .int 0), ("radius", .int 1000),
          ("modes", .str "tube,overground,dlr")]⟩] := by
  have h := c2_radius_clamp_amended.1 emptyWorld
      [("lat", .int 51), ("lon", .int 0), ("radius", .int 2000)] (.int 51) (.int 0) 2000
      rfl (fun hc => Json.noConfusion hc) rfl (fun hc => Json.noConfusion hc) rfl
  rw [show min (2000 : Int) 1000 = 1000 by omega] at h
  exact h

/-! ### C4: formatter determinism -/

/-- A fixed instantiation of the abstract timestamp parse function, mapping
the example timestamp (after the source's Z-suffix rewrite) to epoch
second 300. -/
def parseExample : String → Option Int := fun s =>
  if s = "2024-01-01T00:05:00+00:00" then some 300 else none

/-- An arrival record whose expected arrival is at epoch second 300. -/
def arrivalExample : Json := .obj [("expectedArrival", .str "2024-01-01T00:05:00Z")]

/-- C4 counterexample: the arrival formatter consults the process clock, so
two invocations of `format_arrival` on the same record — five minutes
apart — produce different text ("5 minutes" vs "Due"). -/
theorem c4_formatter_deterministic_counterexample :
    format_arrival parseExample 0 arrivalExample =
      .ok "Line: Unknown Line\nPlatform: Unknown Platform\nDestination: Unknown Destination\nArrival: 5 minutes\n---" ∧
    format_arrival parseExample 300 arrivalExample =
      .ok "Line: Unknown Line\nPlatform: Unknown Platform\nDestination: Unknown Destination\nArrival: Due\n---" ∧
    ("Line: Unknown Line\nPlatform: Unknown Platform\nDestination: Unknown Destination\nArrival: 5 minutes\n---" : String) ≠
      "Line: Unknown Line\nPlatform: Unknown Platform\nDestination: Unknown Destination\nArrival: Due\n---" :=
  ⟨rfl, rfl, by decide⟩

/-- C4 amended: each of the four clock-independent formatters is a function
of its record alone, and the arrival formatter is a function of the record
together with the current time: two invocations agree whenever the record
(and, for arrivals, the clock reading) agree. -/
theorem c4_formatter_deterministic_amended :
    (∀ r : Json, format_line_status r = format_line_status r) ∧
    (∀ r : Json, format_bike_point r = format_bike_point r) ∧
    (∀ r : Json, format_station_info r = format_station_info r) ∧
    (∀ r : Json, format_nearby_stop r = format_nearby_stop r) ∧
    (∀ (parse : String → Option Int) (now : Int) (r : Json),
        format_arrival parse now r = format_arrival parse now r) :=
  ⟨fun _ => rfl, fun _ => rfl, fun _ => rfl, fun _ => rfl, fun _ _ _ => rfl⟩

/-! ### C3: formatter totality -/

/-- Whether a fallible computation succeeded. -/
def exOk {α : Type} : Except PyErr α → Bool
  | .ok _ => true
  | .error _ => false

@[simp] theorem exOk_ok {α : Type} (x : α) : exOk (Except.ok x) = true := rfl

@[simp] theorem exOk_error {α : Type} (e : PyErr) :
    exOk (Except.error e : Except PyErr α) = false := rfl

@[simp] theorem except_bind_ok {α β : Type} (x : α) (f : α → Except PyErr β) :
    (Except.ok x >>= f) = f x := rfl

@[simp] theorem except_bind_error {α β : Type} (e : PyErr) (f : α → Except PyErr β) :
    ((Except.error e : Except PyErr α) >>= f) = Except.error e := rfl

@[simp] theorem except_pure {α : Type} (x : α) :
    (pure x : Except PyErr α) = Except.ok x := rfl

theorem exOk_exists {α : Type} {e : Except PyErr α} (h : exOk e = true) :
    ∃ x, e = .ok x := by
  cases e with
  | ok x => exact ⟨x, rfl⟩
  | error e => simp at h

def isObj : Json → Bool
  | .obj _ => true
  | _ => false

def isStr : Json → Bool
  | .str _ => true
  | _ => false

theorem foldlM_exOk {α β : Type} (f : β → α → Except PyErr β) (l : List α)
    (h : ∀ b, ∀ x ∈ l, exOk (f b x) = true) :
    ∀ b, exOk (l.foldlM f b) = true := by
  induction l with
  | nil => intro b; rfl
  | cons x tl ih =>
      intro b
      obtain ⟨b2, hb2⟩ := exOk_exists (h b x (List.mem_cons_self _ _))
      rw [List.foldlM_cons, hb2, except_bind_ok]
      exact ih (fun b y hy => h b y (List.mem_cons_of_mem _ hy)) b2

theorem mapM_exOk {α β : Type} (f : α → Except PyErr β) (l : List α)
    (h : ∀ x ∈ l, exOk (f x) = true) :
    exOk (l.mapM f) = true := by
  induction l with
  | nil => rfl
  | cons x tl ih =>
      obtain ⟨y, hy⟩ := exOk_exists (h x (List.mem_cons_self _ _))
      obtain ⟨out, hout⟩ := exOk_exists (ih (fun z hz => h z (List.mem_cons_of_mem _ hz)))
      have hout2 : List.mapM.loop f tl [] = Except.ok out := hout
      rw [List.mapM_cons, hy]
      simp [hout2]

/-- Records on which `format_line_status` cannot raise: dicts whose
`lineStatuses` value (when truthy) is a list headed by a dict. -/
def wt_line_status : Json → Bool
  | .obj fs =>
      (match dictLookupD fs "lineStatuses" (.arr []) with
       | .arr (.obj _ :: _) => true
       | st => !st.truthy)
  | _ => false

theorem format_line_status_ok (r : Json) (h : wt_line_status r = true) :
    ∃ s, format_line_status r = .ok s := by
  match r with
  | .null | .bool _ | .int _ | .str _ | .arr _ => simp [wt_line_status] at h
  | .obj fs =>
      simp only [wt_line_status] at h
      apply exOk_exists
      cases hst : dictLookupD fs "lineStatuses" (.arr []) with
      | arr xs =>
          match xs with
          | [] => simp [format_line_status, dictGet, hst, Json.truthy]
          | x :: tl =>
              rw [hst] at h
              match x with
              | .obj gs =>
                  simp [format_line_status, dictGet, hst, Json.truthy, getItem]
              | .null | .bool _ | .int _ | .str _ | .arr _ => simp [Json.truthy] at h
      | null => simp [format_line_status, dictGet, hst, Json.truthy]
      | bool b =>
          rw [hst] at h
          simp [Json.truthy] at h
          simp [format_line_status, dictGet, hst, Json.truthy, h]
      | int n =>
          rw [hst] at h
          simp [Json.truthy] at h
          simp [format_line_status, dictGet, hst, Json.truthy, h]
      | str s =>
          rw [hst] at h
          simp [Json.truthy] at h
          simp [format_line_status, dictGet, hst, Json.truthy, h]
      | obj gs =>
          rw [hst] at h
          simp [Json.truthy] at h
          simp [format_line_status, dictGet, hst, Json.truthy, h]

theorem format_arrival_ok (parse : String → Option Int) (now : Int) (r : Json)
    (h : isObj r = true) : ∃ s, format_arrival parse now r = .ok s := by
  match r with
  | .obj fs => exact ⟨_, rfl⟩
  | .null | .bool _ | .int _ | .str _ | .arr _ => simp [isObj] at h

theorem bikeStep_exOk (bd : Json × Json) (p : Json) (h : isObj p = true) :
    exOk (bikeStep bd p) = true := by
  match p with
  | .obj pf =>
      by_cases h1 : eqStr (dictLookupD pf "key" Json.null) "NbBikes" <;>
        by_cases h2 : eqStr (dictLookupD pf "key" Json.null) "NbEmptyDocks" <;>
        simp [bikeStep, dictGet, h1, h2]
  | .null | .bool _ | .int _ | .str _ | .arr _ => simp [isObj] at h

/-- Records on which `format_bike_point` cannot raise: dicts whose
`additionalProperties` value is a list of dicts. -/
def wt_bike_point : Json → Bool
  | .obj fs =>
      (match dictLookupD fs "additionalProperties" (.arr []) with
       | .arr xs => xs.all isObj
       | _ => false)
  | _ => false

theorem format_bike_point_ok (r : Json) (h : wt_bike_point r = true) :
    ∃ s, format_bike_point r = .ok s := by
  match r with
  | .null | .bool _ | .int _ | .str _ | .arr _ => simp [wt_bike_point] at h
  | .obj fs =>
      simp only [wt_bike_point] at h
      apply exOk_exists
      cases hp : dictLookupD fs "additionalProperties" (.arr []) with
      | arr xs =>
          rw [hp] at h
          obtain ⟨out, hout⟩ := exOk_exists (foldlM_exOk bikeStep xs
            (fun b x hx => bikeStep_exOk b x (List.all_eq_true.mp h x hx))
            ((.str "Unknown" : Json), (.str "Unknown" : Json)))
          simp [format_bike_point, dictGet, hp, pyIter, hout]
      | null => rw [hp] at h; simp at h
      | bool b => rw [hp] at h; simp at h
      | int n => rw [hp] at h; simp at h
      | str s => rw [hp] at h; simp at h
      | obj gs => rw [hp] at h; simp at h

theorem asStr_exOk (x : Json) (h : isStr x = true) : exOk (asStr x) = true := by
  match x with
  | .str s => rfl
  | .null | .bool _ | .int _ | .arr _ | .obj _ => simp [isStr] at h

theorem joinValueList_exOk (sep : String) (xs : List Json) (h : xs.all isStr = true) :
    exOk (joinValueList sep xs) = true := by
  obtain ⟨out, hout⟩ := exOk_exists
    (mapM_exOk asStr xs (fun x hx => asStr_exOk x (List.all_eq_true.mp h x hx)))
  have hout2 : List.mapM.loop asStr xs [] = Except.ok out := hout
  simp [joinValueList, hout2]

theorem foldlM_categoryStep_ok (cat : String) :
    ∀ items : List Json,
      (∀ x ∈ items, ∃ pf, x = Json.obj pf ∧ isStr (dictLookupD pf "key" (.str "")) = true) →
      ∀ acc : List Json, acc.all isStr = true →
      ∃ out, items.foldlM (categoryStep cat) acc = .ok out ∧ out.all isStr = true := by
  intro items
  induction items with
  | nil => intro _ acc hacc; exact ⟨acc, rfl, hacc⟩
  | cons p tl ih =>
      intro h acc hacc
      obtain ⟨pf, rfl, hk⟩ := h p (List.mem_cons_self _ _)
      have ih' := ih (fun x hx => h x (List.mem_cons_of_mem _ hx))
      rw [List.foldlM_cons]
      by_cases hc : eqStr (dictLookupD pf "category" Json.null) cat
      · have hstep : categoryStep cat acc (Json.obj pf) =
            .ok (acc ++ [dictLookupD pf "key" (.str "")]) := by
          simp [categoryStep, dictGet, hc]
        obtain ⟨out, hout, hall⟩ := ih' (acc ++ [dictLookupD pf "key" (.str "")])
          (by rw [List.all_append]; simp [hacc, hk])
        exact ⟨out, by rw [hstep, except_bind_ok, hout], hall⟩
      · have hstep : categoryStep cat acc (Json.obj pf) = .ok acc := by
          simp [categoryStep, dictGet, hc]
        obtain ⟨out, hout, hall⟩ := ih' acc hacc
        exact ⟨out, by rw [hstep, except_bind_ok, hout], hall⟩

theorem collectByCategory_ok (items : List Json) (cat : String)
    (h : ∀ x ∈ items, ∃ pf, x = Json.obj pf ∧ isStr (dictLookupD pf "key" (.str "")) = true) :
    ∃ out, collectByCategory items cat = .ok out ∧ out.all isStr = true :=
  foldlM_categoryStep_ok cat items h [] rfl

def isArr : Json → Bool
  | .arr _ => true
  | _ => false

/-- A JSON list whose elements are all strings (safe to `", ".join`). -/
def isStrArr : Json → Bool
  | .arr xs => xs.all isStr
  | _ => false

/-- A property record usable by the station formatter's category loops. -/
def wtProp : Json → Bool
  | .obj pf => isStr (dictLookupD pf "key" (.str ""))
  | _ => false

def isPropArr : Json → Bool
  | .arr xs => xs.all wtProp
  | _ => false

/-- A serving-line record whose `name` (when present) is a string. -/
def wtLine : Json → Bool
  | .obj lf => isStr (dictLookupD lf "name" (.str ""))
  | _ => false

def isLineArr : Json → Bool
  | .arr xs => xs.all wtLine
  | _ => false

/-- A value accepted by the `:.0f` format spec in our number model. -/
def isNum : Json → Bool
  | .int _ => true
  | .bool _ => true
  | _ => false

theorem isStrArr_elim (j : Json) (h : isStrArr j = true) :
    ∃ xs, j = .arr xs ∧ xs.all isStr = true := by
  match j with
  | .arr xs => exact ⟨xs, rfl, h⟩
  | .null | .bool _ | .int _ | .str _ | .obj _ => simp [isStrArr] at h

theorem isArr_elim (j : Json) (h : isArr j = true) : ∃ xs, j = .arr xs := by
  match j with
  | .arr xs => exact ⟨xs, rfl⟩
  | .null | .bool _ | .int _ | .str _ | .obj _ => simp [isArr] at h

theorem isPropArr_elim (j : Json) (h : isPropArr j = true) :
    ∃ xs, j = .arr xs ∧
      ∀ x ∈ xs, ∃ pf, x = Json.obj pf ∧ isStr (dictLookupD pf "key" (.str "")) = true := by
  match j with
  | .arr xs =>
      refine ⟨xs, rfl, fun x hx => ?_⟩
      have := List.all_eq_true.mp h x hx
      match x with
      | .obj pf => exact ⟨pf, rfl, this⟩
      | .null | .bool _ | .int _ | .str _ | .arr _ => simp [wtProp] at this
  | .null | .bool _ | .int _ | .str _ | .obj _ => simp [isPropArr] at h

theorem isLineArr_elim (j : Json) (h : isLineArr j = true) :
    ∃ xs, j = .arr xs ∧
      ∀ x ∈ xs, ∃ lf, x = Json.obj lf ∧ isStr (dictLookupD lf "name" (.str "")) = true := by
  match j with
  | .arr xs =>
      refine ⟨xs, rfl, fun x hx => ?_⟩
      have := List.all_eq_true.mp h x hx
      match x with
      | .obj lf => exact ⟨lf, rfl, this⟩
      | .null | .bool _ | .int _ | .str _ | .arr _ => simp [wtLine] at this
  | .null | .bool _ | .int _ | .str _ | .obj _ => simp [isLineArr] at h

theorem formatFixed0_exOk (j : Json) (h : isNum j = true) : exOk (formatFixed0 j) = true := by
  match j with
  | .int n => rfl
  | .bool b => rfl
  | .null | .str _ | .arr _ | .obj _ => simp [isNum] at h

theorem mapM_lineName_ok :
    ∀ ls : List Json,
      (∀ l ∈ ls, ∃ lf, l = Json.obj lf ∧ isStr (dictLookupD lf "name" (.str "")) = true) →
      ∃ out, ls.mapM lineName = .ok out ∧ out.all isStr = true := by
  intro ls
  induction ls with
  | nil => intro _; exact ⟨[], rfl, rfl⟩
  | cons l tl ih =>
      intro h
      obtain ⟨lf, rfl, hn⟩ := h l (List.mem_cons_self _ _)
      obtain ⟨out, hout, hall⟩ := ih (fun x hx => h x (List.mem_cons_of_mem _ hx))
      have hout2 : List.mapM.loop lineName tl [] = Except.ok out := hout
      refine ⟨dictLookupD lf "name" (.str "") :: out, ?_, ?_⟩
      · rw [List.mapM_cons]
        simp [lineName, dictGet, hout2]
      · simp [hall, hn]

/-- Records on which `format_station_info` cannot raise. -/
def wt_station_info : Json → Bool
  | .obj fs =>
      isStrArr (dictLookupD fs "modes" (.arr [])) &&
      isArr (dictLookupD fs "zones" (.arr [])) &&
      isPropArr (dictLookupD fs "additionalProperties" (.arr [])) &&
      isLineArr (dictLookupD fs "lines" (.arr []))
  | _ => false

theorem format_station_info_ok (r : Json) (h : wt_station_info r = true) :
    ∃ s, format_station_info r = .ok s := by
  match r with
  | .null | .bool _ | .int _ | .str _ | .arr _ => simp [wt_station_info] at h
  | .obj fs =>
      simp only [wt_station_info, Bool.and_eq_true] at h
      obtain ⟨⟨⟨h1, h2⟩, h3⟩, h4⟩ := h
      obtain ⟨ms, hms, hmsall⟩ := isStrArr_elim _ h1
      obtain ⟨zs, hzs⟩ := isArr_elim _ h2
      obtain ⟨ps, hps, hpsall⟩ := isPropArr_elim _ h3
      obtain ⟨ls, hls, hlsall⟩ := isLineArr_elim _ h4
      obtain ⟨mstr, hm⟩ := exOk_exists (joinValueList_exOk ", " ms hmsall)
      obtain ⟨fac, hfac, hfacall⟩ := collectByCategory_ok ps "Facility" hpsall
      obtain ⟨acc, hacc, haccall⟩ := collectByCategory_ok ps "Accessibility" hpsall
      obtain ⟨lnames, hln, hlnall⟩ := mapM_lineName_ok ls hlsall
      have hln2 : List.mapM.loop lineName ls [] = Except.ok lnames := hln
      obtain ⟨lstr, hl⟩ := exOk_exists (joinValueList_exOk ", " lnames hlnall)
      obtain ⟨fstr, hf⟩ := exOk_exists (joinValueList_exOk ", " fac hfacall)
      obtain ⟨astr, ha⟩ := exOk_exists (joinValueList_exOk ", " acc haccall)
      apply exOk_exists
      by_cases hfe : fac.isEmpty <;> by_cases hae : acc.isEmpty <;>
        simp [format_station_info, dictGet, hms, hzs, hps, hls, pyJoinStrs, pyJoinMapStr,
          pyIter, hm, hfac, hacc, hln2, hl, hf, ha, hfe, hae]

/-- Records on which `format_nearby_stop` cannot raise. -/
def wt_nearby_stop : Json → Bool
  | .obj fs =>
      isNum (dictLookupD fs "distance" (.int 0)) &&
      isStrArr (dictLookupD fs "modes" (.arr [])) &&
      isLineArr (dictLookupD fs "lines" (.arr []))
  | _ => false

theorem format_nearby_stop_ok (r : Json) (h : wt_nearby_stop r = true) :
    ∃ s, format_nearby_stop r = .ok s := by
  match r with
  | .null | .bool _ | .int _ | .str _ | .arr _ => simp [wt_nearby_stop] at h
  | .obj fs =>
      simp only [wt_nearby_stop, Bool.and_eq_true] at h
      obtain ⟨⟨h1, h2⟩, h3⟩ := h
      obtain ⟨ms, hms, hmsall⟩ := isStrArr_elim _ h2
      obtain ⟨ls, hls, hlsall⟩ := isLineArr_elim _ h3
      obtain ⟨mstr, hm⟩ := exOk_exists (joinValueList_exOk ", " ms hmsall)
      obtain ⟨lnames, hln, hlnall⟩ := mapM_lineName_ok ls hlsall
      have hln2 : List.mapM.loop lineName ls [] = Except.ok lnames := hln
      obtain ⟨lstr, hl⟩ := exOk_exists (joinValueList_exOk ", " lnames hlnall)
      obtain ⟨dstr, hd⟩ := exOk_exists (formatFixed0_exOk _ h1)
      apply exOk_exists
      simp [format_nearby_stop, dictGet, hms, hls, pyJoinStrs, pyIter, hm, hln2, hl, hd]

/-- C3 counterexample: a malformed record makes a formatter raise.  Here
`lineStatuses` holds a number instead of a status dict, so the source's
`statuses[0].get(...)` raises AttributeError — the formatter does not
return a string. -/
theorem c3_formatter_total_counterexample :
    format_line_status (.obj [("lineStatuses", .arr [.int 5])]) =
      .error (.attributeError "get") := rfl

/-- C3 amended: each formatter returns a string on every record whose
present fields are well-typed for that formatter (in particular on records
with any or all fields missing), and a record with no fields at all renders
the documented placeholders; but on a malformed field a formatter can
raise, as the counterexample shows. -/
theorem c3_formatter_total_amended :
    (∀ r : Json, wt_line_status r = true → ∃ s, format_line_status r = .ok s) ∧
    (∀ (parse : String → Option Int) (now : Int) (r : Json), isObj r = true →
        ∃ s, format_arrival parse now r = .ok s) ∧
    (∀ r : Json, wt_bike_point r = true → ∃ s, format_bike_point r = .ok s) ∧
    (∀ r : Json, wt_station_info r = true → ∃ s, format_station_info r = .ok s) ∧
    (∀ r : Json, wt_nearby_stop r = true → ∃ s, format_nearby_stop r = .ok s) ∧
    format_line_status (.obj []) = .ok "Line: Unknown Line\nStatus: Unknown\n---" ∧
    (∀ (parse : String → Option Int) (now : Int), parse "" = none →
        format_arrival parse now (.obj []) =
          .ok "Line: Unknown Line\nPlatform: Unknown Platform\nDestination: Unknown Destination\nArrival: Time unknown\n---") ∧
    format_bike_point (.obj []) =
      .ok "Location: Unknown Location\nBikes Available: Unknown\nEmpty Docks: Unknown\n---" ∧
    format_station_info (.obj []) =
      .ok "Station: Unknown Station\nTransport Modes: \nZones: \nLines: \n---" ∧
    format_nearby_stop (.obj []) =
      .ok "Stop: Unknown Location\nDistance: 0m\nModes: \nLines: \n---" := by
  refine ⟨format_line_status_ok, format_arrival_ok, format_bike_point_ok,
    format_station_info_ok, format_nearby_stop_ok, rfl, ?_, rfl, rfl, rfl⟩
  intro parse now hparse
  have hparse2 : parse (replaceZ "") = none := hparse
  simp only [format_arrival, dictGet, dictLookupD, dictLookup, except_bind_ok,
    except_pure, Option.getD_none, hparse2]
  rfl

/-- Witness for C3 (amended): a record missing every optional field is
well-typed for each formatter and formats successfully. -/
theorem c3_formatter_total_witness :
    wt_line_status (.obj [("name", .str "X")]) = true ∧
    (∃ s, format_line_status (.obj [("name", .str "X")]) = .ok s) ∧
    wt_station_info (.obj [("modes", .arr [.str "tube"])]) = true ∧
    (∃ s, format_station_info (.obj [("modes", .arr [.str "tube"])]) = .ok s) ∧
    (∃ s, format_arrival noParse 0 (.obj []) = .ok s) ∧
    wt_bike_point (.obj []) = true ∧ (∃ s, format_bike_point (.obj []) = .ok s) ∧
    wt_nearby_stop (.obj []) = true ∧ (∃ s, format_nearby_stop (.obj []) = .ok s) :=
  ⟨rfl, c3_formatter_total_amended.1 _ rfl,
   rfl, c3_formatter_total_amended.2.2.2.1 _ rfl,
   c3_formatter_total_amended.2.1 noParse 0 _ rfl,
   rfl, c3_formatter_total_amended.2.2.1 _ rfl,
   rfl, c3_formatter_total_amended.2.2.2.2.1 _ rfl⟩

/-! ### C6: the resolve-by-search step -/

theorem getItem_cons_zero (x : Json) (tl : List Json) :
    getItem (.arr (x :: tl)) (.int 0) = .ok x := by
  simp [getItem]

theorem resolveStation_absent : resolveStation none = .ok none := rfl

theorem resolveStation_falsy (j : Json) (h : j.truthy = false) :
    resolveStation (some j) = .ok none := by
  simp [resolveStation, optTruthy, h]

theorem resolveStation_nomatches (fs : Dict)
    (h : (dictLookupD fs "matches" .null).truthy = false) :
    resolveStation (some (.obj fs)) = .ok none := by
  match fs with
  | [] => rfl
  | kv :: tl =>
      have ht : (Json.obj (kv :: tl)).truthy = true := rfl
      simp [resolveStation, optTruthy, ht, dictGet, h]

theorem resolveStation_found (fs m0f : Dict) (ms : List Json) (idv : Json)
    (hm : dictLookup fs "matches" = some (.arr (.obj m0f :: ms)))
    (hid : dictLookup m0f "id" = some idv) :
    resolveStation (some (.obj fs)) = .ok (some idv) := by
  match fs with
  | [] => simp [dictLookup] at hm
  | kv :: tl =>
      have hd : dictLookupD (kv :: tl) "matches" .null = .arr (.obj m0f :: ms) := by
        simp [dictLookupD, hm]
      have ht : (Json.obj (kv :: tl)).truthy = true := rfl
      have ht2 : (Json.arr (.obj m0f :: ms)).truthy = true := rfl
      have hg1 : getItem (Json.obj (kv :: tl)) (.str "matches") =
          .ok (.arr (.obj m0f :: ms)) := by simp [getItem, hm]
      have hg2 : getItem (Json.obj m0f) (.str "id") = .ok idv := by simp [getItem, hid]
      simp [resolveStation, optTruthy, ht, ht2, dictGet, hd, getItem_cons_zero, hg1, hg2]

theorem getArrivalsTool_eq (parse : String → Option Int) (now : Int) (world : World)
    (args : Dict) (station : String)
    (harg : dictLookup args "station" = some (.str station))
    (hstrip : pyStrip station = station) (hne : station ≠ "") :
    getArrivalsTool parse now world args =
      (match resolveStation (world (searchReq station)) with
       | .error e => ([searchReq station], .error e)
       | .ok none => ([searchReq station], .ok ("Could not find station: " ++ station))
       | .ok (some stationId) =>
         ([searchReq station, ⟨"StopPoint/" ++ pyStr stationId ++ "/Arrivals", none⟩],
          arrivalsReply parse now station
            (world ⟨"StopPoint/" ++ pyStr stationId ++ "/Arrivals", none⟩))) := by
  unfold getArrivalsTool getStrippedArg
  rw [harg]
  simp [hstrip, hne]

theorem getStationInfoTool_eq (world : World) (args : Dict) (station : String)
    (harg : dictLookup args "station" = some (.str station))
    (hstrip : pyStrip station = station) (hne : station ≠ "") :
    getStationInfoTool world args =
      (match resolveStation (world (searchReq station)) with
       | .error e => ([searchReq station], .error e)
       | .ok none => ([searchReq station], .ok ("Could not find station: " ++ station))
       | .ok (some stationId) =>
         ([searchReq station, ⟨"StopPoint/" ++ pyStr stationId, none⟩],
          stationInfoReply station (world ⟨"StopPoint/" ++ pyStr stationId, none⟩))) := by
  unfold getStationInfoTool getStrippedArg
  rw [harg]
  simp [hstrip, hne]

/-- C6: for `get-arrivals` and `get-station-info`, an absent search result
or a falsy `matches` list yields the "Could not find station" message with
no second upstream call, and when matches exist the second (and only
further) request uses exactly the first match's identifier. -/
theorem c6_resolve_by_search :
    ∀ (parse : String → Option Int) (now : Int) (world : World) (args : Dict)
      (station : String),
      dictLookup args "station" = some (.str station) → pyStrip station = station →
      station ≠ "" → args ≠ [] →
      ((world (searchReq station) = none →
          handle_call_tool parse now world "get-arrivals" (some args) =
            ([searchReq station], .ok ("Could not find station: " ++ station)) ∧
          handle_call_tool parse now world "get-station-info" (some args) =
            ([searchReq station], .ok ("Could not find station: " ++ station))) ∧
       (∀ fs : Dict, world (searchReq station) = some (.obj fs) →
          (dictLookupD fs "matches" .null).truthy = false →
          handle_call_tool parse now world "get-arrivals" (some args) =
            ([searchReq station], .ok ("Could not find station: " ++ station)) ∧
          handle_call_tool parse now world "get-station-info" (some args) =
            ([searchReq station], .ok ("Could not find station: " ++ station))) ∧
       (∀ (fs m0f : Dict) (ms : List Json) (idv : Json),
          world (searchReq station) = some (.obj fs) →
          dictLookup fs "matches" = some (.arr (.obj m0f :: ms)) →
          dictLookup m0f "id" = some idv →
          (handle_call_tool parse now world "get-arrivals" (some args)).1 =
            [searchReq station, ⟨"StopPoint/" ++ pyStr idv ++ "/Arrivals", none⟩] ∧
          (handle_call_tool parse now world "get-station-info" (some args)).1 =
            [searchReq station, ⟨"StopPoint/" ++ pyStr idv, none⟩])) := by
  intro parse now world args station harg hstrip hne hargs
  match args with
  | [] => exact absurd rfl hargs
  | q :: tl =>
      have hA : handle_call_tool parse now world "get-arrivals" (some (q :: tl)) =
          getArrivalsTool parse now world (q :: tl) := rfl
      have hS : handle_call_tool parse now world "get-station-info" (some (q :: tl)) =
          getStationInfoTool world (q :: tl) := rfl
      rw [hA, hS, getArrivalsTool_eq parse now world _ station harg hstrip hne,
        getStationInfoTool_eq world _ station harg hstrip hne]
      refine ⟨?_, ?_, ?_⟩
      · intro hw
        rw [hw, resolveStation_absent]
        exact ⟨rfl, rfl⟩
      · intro fs hw hm
        rw [hw, resolveStation_nomatches fs hm]
        exact ⟨rfl, rfl⟩
      · intro fs m0f ms idv hw hm hid
        rw [hw, resolveStation_found fs m0f ms idv hm hid]
        exact ⟨rfl, rfl⟩

/-- A world where searching for "bank" resolves to one match. -/
def foundWorld : World := fun r =>
  if r.endpoint = "StopPoint/Search/bank" then
    some (.obj [("matches", .arr [.obj [("id", .str "940GZZLUBNK")]])])
  else none

/-- Witness for C6: with no search result the operation stops at the
"Could not find station" message; with one match the second request uses
that match's id. -/
theorem c6_resolve_by_search_witness :
    handle_call_tool noParse 0 emptyWorld "get-arrivals" (some [("station", .str "bank")]) =
      ([searchReq "bank"], .ok ("Could not find station: " ++ "bank")) ∧
    (handle_call_tool noParse 0 foundWorld "get-arrivals" (some [("station", .str "bank")])).1 =
      [searchReq "bank", ⟨"StopPoint/" ++ pyStr (.str "940GZZLUBNK") ++ "/Arrivals", none⟩] :=
  ⟨((c6_resolve_by_search noParse 0 emptyWorld [("station", .str "bank")] "bank" rfl rfl
      (by decide) (by simp)).1 rfl).1,
   ((c6_resolve_by_search noParse 0 foundWorld [("station", .str "bank")] "bank" rfl rfl
      (by decide) (by simp)).2.2 [("matches", .arr [.obj [("id", .str "940GZZLUBNK")]])]
      [("id", .str "940GZZLUBNK")] [] (.str "940GZZLUBNK") rfl rfl rfl).1⟩

/-! ### C10: the dead "No bike points found" branch -/

theorem failed_ne_nobikes (x y : String) :
    "Failed to search for bike points near " ++ x ≠
      "No bike points found near " ++ y := by
  intro h
  have h2 := congrArg String.data h
  rw [String.data_append, String.data_append,
    show ("Failed to search for bike points near ").data =
      'F' :: ("ailed to search for bike points near ").data from rfl,
    show ("No bike points found near ").data =
      'N' :: ("o bike points found near ").data from rfl] at h2
  simp at h2

theorem bikehdr_ne_nobikes (x z y : String) :
    "Bike points near " ++ x ++ ":\n\n" ++ z ≠
      "No bike points found near " ++ y := by
  intro h
  have h2 := congrArg String.data h
  simp only [String.data_append] at h2
  simp at h2

theorem bikePointsReply_ne (location loc : String) (sr : Option Json) :
    bikePointsReply location sr ≠ Except.ok ("No bike points found near " ++ loc) := by
  unfold bikePointsReply
  cases ht : optTruthy sr with
  | false =>
      simp only [ht, Bool.not_false, if_true]
      intro h
      exact failed_ne_nobikes location loc (Except.ok.inj h)
  | true =>
      simp only [ht, Bool.not_true, Bool.false_eq_true, if_false]
      match sr with
      | none => simp [optTruthy] at ht
      | some j =>
          cases h5 : pySlice j 5 with
          | error e => simp [h5]
          | ok sliced =>
              cases hi : pyIter sliced with
              | error e => simp [h5, hi]
              | ok items =>
                  cases hm : items.mapM format_bike_point with
                  | error e =>
                      have hm2 : List.mapM.loop format_bike_point items [] = .error e := hm
                      simp [h5, hi, hm2]
                  | ok blocks =>
                      have hm2 : List.mapM.loop format_bike_point items [] = .ok blocks := hm
                      simp only [h5, hi, hm, hm2, except_bind_ok, except_pure]
                      intro h
                      exact bikehdr_ne_nobikes location _ loc (Except.ok.inj h)

/-- C10: `search-bike-points` never returns the "No bike points found near"
message: the branch producing it repeats the emptiness check that already
routed falsy results to the "Failed to search" message, so it is dead. -/
theorem c10_no_bikepoints_message_unreachable :
    ∀ (parse : String → Option Int) (now : Int) (world : World) (args : Option Dict)
      (loc : String),
      (handle_call_tool parse now world "search-bike-points" args).2 ≠
        .ok ("No bike points found near " ++ loc) := by
  intro parse now world args loc
  match args with
  | none =>
      rw [show (handle_call_tool parse now world "search-bike-points" none).2 =
        Except.error (.valueError "Missing arguments") from rfl]
      simp
  | some [] =>
      rw [show (handle_call_tool parse now world "search-bike-points" (some [])).2 =
        Except.error (.valueError "Missing arguments") from rfl]
      simp
  | some (q :: tl) =>
      have hd : handle_call_tool parse now world "search-bike-points" (some (q :: tl)) =
          searchBikePointsTool world (q :: tl) := rfl
      rw [hd]
      unfold searchBikePointsTool
      cases hs : getStrippedArg (q :: tl) "location" with
      | error e => simp
      | ok location =>
          by_cases hloc : location = ""
          · simp [hloc]
          · simp only [hloc, if_false]
            exact bikePointsReply_ne location loc _

/-! ### C5: arrivals are sorted and truncated -/

/-- The expected-arrival key of a well-formed arrival record, as a string
(the value the source's sort key function returns). -/
def arrKey (r : Json) : String :=
  match r with
  | .obj fs =>
      (match dictLookupD fs "expectedArrival" (.str "") with
       | .str s => s
       | _ => "")
  | _ => ""

/-- The pair `arrivalKeyed` produces on a well-formed arrival record. -/
def arrKeyPair (r : Json) : Json × Json := (.str (arrKey r), r)

/-- The same pair with its key exposed as a string. -/
def strKeyPair (r : Json) : String × Json := (arrKey r, r)

instance : IsTotal (String × Json) (fun a b => a.1 ≤ b.1) :=
  ⟨fun a b => le_total a.1 b.1⟩

instance : IsTrans (String × Json) (fun a b => a.1 ≤ b.1) :=
  ⟨fun _ _ _ h1 h2 => le_trans h1 h2⟩

/-- A record with a string-typed (or absent) `expectedArrival` field. -/
def wtArrival (r : Json) : Prop :=
  ∃ fs s, r = Json.obj fs ∧ dictLookupD fs "expectedArrival" (.str "") = .str s

theorem arrivalKeyed_eq (r : Json) (h : wtArrival r) :
    arrivalKeyed r = .ok (arrKeyPair r) := by
  obtain ⟨fs, s, rfl, hs⟩ := h
  simp [arrivalKeyed, dictGet, hs, arrKeyPair, arrKey]

theorem mapM_arrivalKeyed :
    ∀ records : List Json, (∀ r ∈ records, wtArrival r) →
      records.mapM arrivalKeyed = .ok (records.map arrKeyPair) := by
  intro records
  induction records with
  | nil => intro _; rfl
  | cons r tl ih =>
      intro h
      have htl : List.mapM.loop arrivalKeyed tl [] = .ok (tl.map arrKeyPair) :=
        ih (fun x hx => h x (List.mem_cons_of_mem _ hx))
      rw [List.mapM_cons, arrivalKeyed_eq r (h r (List.mem_cons_self _ _))]
      simp [htl]

theorem mapM_strKey :
    ∀ records : List Json,
      (records.map arrKeyPair).mapM strKey? = some (records.map strKeyPair) := by
  intro records
  induction records with
  | nil => rfl
  | cons r tl ih =>
      have htl : List.mapM.loop strKey? (tl.map arrKeyPair) [] =
          some (tl.map strKeyPair) := ih
      rw [List.map_cons, List.mapM_cons,
        show strKey? (arrKeyPair r) = some (strKeyPair r) from rfl]
      simp [htl]

theorem sortArrivals_spec (records : List Json) (h : ∀ r ∈ records, wtArrival r) :
    ∃ sorted, sortArrivals records = .ok sorted ∧
      List.Pairwise (fun a b => arrKey a ≤ arrKey b) sorted ∧
      sorted.Perm records := by
  match records with
  | [] => exact ⟨[], rfl, List.Pairwise.nil, List.Perm.nil⟩
  | [r] =>
      refine ⟨[r], ?_, List.pairwise_singleton _ _, List.Perm.refl _⟩
      have hk1 : List.mapM.loop arrivalKeyed [r] [] = .ok [arrKeyPair r] :=
        mapM_arrivalKeyed [r] h
      simp [sortArrivals, hk1, arrKeyPair]
  | r1 :: r2 :: rest =>
      have hkeyed := mapM_arrivalKeyed (r1 :: r2 :: rest) h
      have hstr := mapM_strKey (r1 :: r2 :: rest)
      set pairs := (r1 :: r2 :: rest).map strKeyPair with hpairs
      set sortedPairs := List.insertionSort (fun a b : String × Json => a.1 ≤ b.1) pairs
        with hsp
      have hperm : sortedPairs.Perm pairs := List.perm_insertionSort _ _
      have hsorted : List.Pairwise (fun a b : String × Json => a.1 ≤ b.1) sortedPairs :=
        List.sorted_insertionSort _ _
      have hmem : ∀ p ∈ sortedPairs, p.1 = arrKey p.2 := by
        intro p hp
        have := hperm.mem_iff.mp hp
        rw [hpairs] at this
        obtain ⟨r, _, rfl⟩ := List.mem_map.mp this
        rfl
      refine ⟨sortedPairs.map Prod.snd, ?_, ?_, ?_⟩
      · have hkeyed2 : List.mapM.loop arrivalKeyed (r1 :: r2 :: rest) [] =
            .ok (arrKeyPair r1 :: arrKeyPair r2 :: rest.map arrKeyPair) := hkeyed
        have hstr2 : List.mapM strKey?
            (arrKeyPair r1 :: arrKeyPair r2 :: rest.map arrKeyPair) = some pairs := hstr
        simp only [sortArrivals, hkeyed, except_bind_ok, List.map_cons]
        rw [hstr2]
        rfl
      · rw [List.pairwise_map]
        refine hsorted.imp_of_mem ?_
        intro a b ha hb hab
        rw [← hmem a ha, ← hmem b hb]
        exact hab
      · have h1 : (sortedPairs.map Prod.snd).Perm (pairs.map Prod.snd) :=
          hperm.map Prod.snd
        rw [hpairs, List.map_map] at h1
        have h2 : (Prod.snd ∘ strKeyPair) = id := funext fun r => rfl
        rw [h2, List.map_id] at h1
        exact h1

theorem arrivalsReply_eq (parse : String → Option Int) (now : Int) (station : String)
    (records sorted : List Json) (blocks : List String)
    (hne : records ≠ [])
    (hsort : sortArrivals records = .ok sorted)
    (hmap : (sorted.take 10).mapM (format_arrival parse now) = .ok blocks) :
    arrivalsReply parse now station (some (.arr records)) =
      .ok ("Next arrivals at " ++ station ++ ":\n\n" ++
        String.intercalate "\n" blocks) := by
  match records with
  | [] => exact absurd rfl hne
  | r :: tl =>
      have ht : optTruthy (some (.arr (r :: tl))) = true := rfl
      have hmap2 : List.mapM.loop (format_arrival parse now) (sorted.take 10) [] =
          .ok blocks := hmap
      simp only [arrivalsReply, ht, Bool.not_true, Bool.false_eq_true, if_false,
        hsort, except_bind_ok, hmap, hmap2, except_pure]

/-- C5: on a successful `get-arrivals` run, the emitted arrival blocks come
from a list of at most 10 records ordered non-decreasing by the
expected-arrival key, even when the upstream returns more records. -/
theorem c5_arrivals_sorted_top10 :
    ∀ (parse : String → Option Int) (now : Int) (world : World) (args : Dict)
      (station id : String) (sfs m0f : Dict) (ms records : List Json),
      dictLookup args "station" = some (.str station) → pyStrip station = station →
      station ≠ "" → args ≠ [] →
      world (searchReq station) = some (.obj sfs) →
      dictLookup sfs "matches" = some (.arr (.obj m0f :: ms)) →
      dictLookup m0f "id" = some (.str id) →
      world ⟨"StopPoint/" ++ id ++ "/Arrivals", none⟩ = some (.arr records) →
      records ≠ [] →
      (∀ r ∈ records, wtArrival r) →
      ∃ out blocks,
        out.length ≤ 10 ∧
        List.Pairwise (fun a b => arrKey a ≤ arrKey b) out ∧
        out.mapM (format_arrival parse now) = .ok blocks ∧
        handle_call_tool parse now world "get-arrivals" (some args) =
          ([searchReq station, ⟨"StopPoint/" ++ id ++ "/Arrivals", none⟩],
           .ok ("Next arrivals at " ++ station ++ ":\n\n" ++
             String.intercalate "\n" blocks)) := by
  intro parse now world args station id sfs m0f ms records harg hstrip hne hargs hw1 hm
    hid hw2 hrne hrec
  obtain ⟨sorted, hsort, hpw, hperm⟩ := sortArrivals_spec records hrec
  have hobj : ∀ r ∈ sorted.take 10, isObj r = true := by
    intro r hr
    have hr3 : r ∈ records := hperm.mem_iff.mp ((List.take_subset _ _) hr)
    obtain ⟨fs, s, rfl, _⟩ := hrec r hr3
    rfl
  obtain ⟨blocks, hblocks⟩ := exOk_exists
    (mapM_exOk (format_arrival parse now) (sorted.take 10)
      (fun r hr => by
        obtain ⟨s, hs⟩ := format_arrival_ok parse now r (hobj r hr)
        simp [hs]))
  refine ⟨sorted.take 10, blocks, List.length_take_le _ _,
    hpw.sublist (List.take_sublist _ _), hblocks, ?_⟩
  match args with
  | [] => exact absurd rfl hargs
  | q :: tl =>
      have hA : handle_call_tool parse now world "get-arrivals" (some (q :: tl)) =
          getArrivalsTool parse now world (q :: tl) := rfl
      rw [hA, getArrivalsTool_eq parse now world _ station harg hstrip hne, hw1,
        resolveStation_found sfs m0f ms (.str id) hm hid]
      show ([searchReq station, ⟨"StopPoint/" ++ pyStr (.str id) ++ "/Arrivals", none⟩],
          arrivalsReply parse now station
            (world ⟨"StopPoint/" ++ pyStr (.str id) ++ "/Arrivals", none⟩)) = _
      rw [show pyStr (.str id) = id from rfl, hw2,
        arrivalsReply_eq parse now station records sorted blocks hrne hsort hblocks]

/-- A world with one search match for "bank" and two out-of-order arrival
records at the resolved stop. -/
def arrivalsWorld : World := fun r =>
  if r.endpoint = "StopPoint/Search/bank" then
    some (.obj [("matches", .arr [.obj [("id", .str "940G")]])])
  else if r.endpoint = "StopPoint/940G/Arrivals" then
    some (.arr [
      .obj [("expectedArrival", .str "2024-01-01T00:10:00Z")],
      .obj [("expectedArrival", .str "2024-01-01T00:05:00Z")]])
  else none

/-- Witness for C5 at a concrete world whose upstream arrivals arrive out
of order. -/
theorem c5_arrivals_sorted_top10_witness :
    ∃ out blocks,
      out.length ≤ 10 ∧
      List.Pairwise (fun a b => arrKey a ≤ arrKey b) out ∧
      out.mapM (format_arrival noParse 0) = .ok blocks ∧
      handle_call_tool noParse 0 arrivalsWorld "get-arrivals"
          (some [("station", .str "bank")]) =
        ([searchReq "bank", ⟨"StopPoint/" ++ "940G" ++ "/Arrivals", none⟩],
         .ok ("Next arrivals at " ++ "bank" ++ ":\n\n" ++
           String.intercalate "\n" blocks)) :=
  c5_arrivals_sorted_top10 noParse 0 arrivalsWorld [("station", .str "bank")] "bank" "940G"
    [("matches", .arr [.obj [("id", .str "940G")]])] [("id", .str "940G")] []
    [.obj [("expectedArrival", .str "2024-01-01T00:10:00Z")],
     .obj [("expectedArrival", .str "2024-01-01T00:05:00Z")]]
    rfl rfl (by decide) (by simp) rfl rfl rfl rfl (by simp)
    (by
      intro r hr
      simp only [List.mem_cons, List.not_mem_nil, or_false] at hr
      rcases hr with rfl | rfl
      · exact ⟨_, "2024-01-01T00:10:00Z", rfl, rfl⟩
      · exact ⟨_, "2024-01-01T00:05:00Z", rfl, rfl⟩)
